import Mathlib

/-!
Verification development for the fish-autoclicker repository
(`src/main.py`).

The embedding abstracts each captured frame by the quantities the code
derives from it: the segmented bar area (`cv2.inRange` + contour filter +
refill, summarised as a natural number), the per-template best match
scores produced by `cv2.matchTemplate`/`cv2.minMaxLoc` (rationals), and a
dominant-colour oracle for rectangular patches
(`most_common_rgb_in_region`).  Match scores, thresholds and wall-clock
times are modelled as rationals; Python integers are `Int`/`Nat`.
-/

namespace FishAuto

/-- Virtual key code for the "1" key (`VK_1 = 0x31` in `main.py`). -/
def VK_1 : Nat := 0x31

/-- Virtual key code for the "2" key. -/
def VK_2 : Nat := 0x32

/-- Virtual key code for the "3" key. -/
def VK_3 : Nat := 0x33

/-- Virtual key code for the "4" key. -/
def VK_4 : Nat := 0x34

/-- `Region` dataclass: `{left, top, width, height}` integer rectangle. -/
structure Region where
  left : Int
  top : Int
  width : Int
  height : Int
  deriving DecidableEq

/-- `Region.right = left + width`. -/
def Region.right (r : Region) : Int := r.left + r.width

/-- `Region.bottom = top + height`. -/
def Region.bottom (r : Region) : Int := r.top + r.height

/-- Length of the index range selected by a Python/numpy basic slice
`a[start:stop]` over an axis of length `n`, for nonnegative bounds:
indices are clamped to `n` and the range is empty when `stop ≤ start`.
This is the semantics of `frame[top:bottom, left:right]` used by
`NewMiniGame._crop_zone` and `FivemAutoFish.capture_screen`. -/
def sliceLen (start stop n : Nat) : Nat := min stop n - min start n

/-- Dimensions `(height, width)` of `frame[top:bottom, left:right]` where
`dims` are the source frame's dimensions, under numpy slice clamping. -/
def cropDims (dims : Nat × Nat) (z : Region) : Nat × Nat :=
  (sliceLen z.top.toNat z.bottom.toNat dims.1,
   sliceLen z.left.toNat z.right.toNat dims.2)

/-- `FivemAutoFish.capture_screen`: returns `None` when the camera gave no
frame, otherwise the region crop of the frame (modelled by its
dimensions).  The crop itself performs no bounds validation; the slice
semantics of `cropDims` silently clamp. -/
def capture_screen (frame : Option (Nat × Nat)) (region : Region) :
    Option (Nat × Nat) :=
  match frame with
  | none => none
  | some d => some (cropDims d region)

namespace NewMiniGame

/-- `NewMiniGame.RESET = 0`. -/
def RESET : Nat := 0

/-- `NewMiniGame.FOUND = 1`. -/
def FOUND : Nat := 1

/-- `NewMiniGame.INTERCEPTION = 2`. -/
def INTERCEPTION : Nat := 2

/-- `self.vk_keys = [VK_1, VK_2, VK_3, VK_4]`. -/
def vk_keys : List Nat := [VK_1, VK_2, VK_3, VK_4]

/-- The mutable recognizer state of `NewMiniGame`. -/
structure State where
  state : Nat
  starting_area : Nat
  prev_area : Nat
  number : Nat
  number_reset_flag : Bool
  deriving DecidableEq

/-- The `(self.number, self.number_reset_flag)` part of the state, the
only part `_detect_number` reads and writes. -/
structure NumState where
  number : Nat
  number_reset_flag : Bool
  deriving DecidableEq

/-- One iteration of the template loop in `_detect_number`: the
accumulator is `(best_score, detected)`, updated when
`max_val >= number_conf and max_val > best_score`. -/
def scanStep (number_conf : ℚ) (acc : ℚ × Nat) (p : Nat × ℚ) : ℚ × Nat :=
  if number_conf ≤ p.2 ∧ acc.1 < p.2 then (p.2, p.1) else acc

/-- The template loop of `_detect_number` over the list of
`(numeral, best match score)` pairs, starting from
`best_score = -1.0, detected = 0`. -/
def scanScores (number_conf : ℚ) (scores : List (Nat × ℚ)) : ℚ × Nat :=
  scores.foldl (scanStep number_conf) (-1, 0)

/-- One comparison of Python's `max(..., key=lambda x: x[1])`: the
candidate replaces the current maximum only on strictly greater score. -/
def maxStep (cur q : Nat × ℚ) : Nat × ℚ :=
  if cur.2 < q.2 then q else cur

/-- Python's `max(all_scores, key=lambda x: x[1])`: the first element
whose score is maximal. -/
def pyMaxSnd : List (Nat × ℚ) → Option (Nat × ℚ)
  | [] => none
  | p :: ps => some (ps.foldl maxStep p)

/-- The `detected` value computed by `_detect_number` from the match
scores: the best numeral meeting `number_conf`, else the overall best
numeral when its score is `>= 0.35`, else `0` (no detection). -/
def detectedOf (number_conf : ℚ) (scores : List (Nat × ℚ)) : Nat :=
  let s := scanScores number_conf scores
  if s.2 = 0 ∧ scores ≠ [] then
    match pyMaxSnd scores with
    | some m => if (35 : ℚ) / 100 ≤ m.2 then m.1 else 0
    | none => 0
  else s.2

/-- `NewMiniGame._detect_number`, acting on `(number, number_reset_flag)`:
if the reset flag is set, clear the number first; then overwrite the
number when a numeral was detected, otherwise keep the previous value. -/
def detect_number (number_conf : ℚ) (scores : List (Nat × ℚ))
    (s : NumState) : NumState :=
  let detected := detectedOf number_conf scores
  let s1 : NumState := if s.number_reset_flag then ⟨0, false⟩ else s
  if detected ≠ 0 then ⟨detected, s1.number_reset_flag⟩ else s1

/-- Lines 166–172 of `run`: when the segmented area is positive, run
`_detect_number` on the number sub-window's scores. -/
def detectPhase (number_conf : ℚ) (g : State) (current_area : Nat)
    (scores : List (Nat × ℚ)) : State :=
  if 0 < current_area then
    let d := detect_number number_conf scores ⟨g.number, g.number_reset_flag⟩
    { g with number := d.number, number_reset_flag := d.number_reset_flag }
  else g

/-- Lines 174–202 of `run`: the `if`/`elif` transition chain, followed by
`self.prev_area = current_area`. -/
def transitionPhase (compare_dif new_area_diff : ℚ) (g : State)
    (current_area : Nat) : State :=
  let g1 : State :=
    if g.state = FOUND ∧ g.starting_area ≠ 0 then
      if (current_area : ℚ) / (g.starting_area : ℚ) ≤ compare_dif then
        if 0 < g.number then { g with state := INTERCEPTION } else g
      else g
    else if g.state = RESET ∧ 0 < current_area then
      { g with state := FOUND, starting_area := current_area,
               number_reset_flag := true }
    else if current_area = 0 then
      { g with state := RESET, starting_area := 0, number := 0 }
    else if current_area ≠ 0 ∧ g.state = FOUND ∧ g.starting_area ≠ 0 ∧
        new_area_diff ≤ (current_area : ℚ) / (g.starting_area : ℚ) then
      { g with starting_area := current_area }
    else g
  { g1 with prev_area := current_area }

/-- Lines 204–218 of `run`: in INTERCEPTION with a numeral, press
`vk_keys[max(0, min(3, number - 1))]` (we record the pressed index) and
reset everything; otherwise press nothing and return
`state != RESET`.  The result is `(new state, pressed key index, return
value)`. -/
def actionPhase (g : State) : State × Option Nat × Bool :=
  if g.state = INTERCEPTION ∧ g.number ≠ 0 then
    let vk_idx := max 0 (min (vk_keys.length - 1) (g.number - 1))
    ({ g with state := RESET, number := 0, number_reset_flag := false,
              prev_area := 0, starting_area := 0 },
     some vk_idx, true)
  else (g, none, g.state != RESET)

/-- `NewMiniGame.run`, one step: number detection, transition chain, then
the interception action.  The frame is abstracted by its segmented
`current_area` and the number window's match `scores`. -/
def run (compare_dif new_area_diff number_conf : ℚ) (g : State)
    (current_area : Nat) (scores : List (Nat × ℚ)) :
    State × Option Nat × Bool :=
  actionPhase
    (transitionPhase compare_dif new_area_diff
      (detectPhase number_conf g current_area scores) current_area)

end NewMiniGame

/-- An RGB colour triple, as returned by `most_common_rgb_in_region`. -/
abbrev Color := Nat × Nat × Nat

namespace FivemAutoFish

/-- `BoxRecord` dataclass: one tracked interactive target. -/
structure BoxRecord where
  center : Int × Int
  color : Color
  bounds : Int × Int × Int × Int
  deriving DecidableEq

/-- The three per-digit cached records `BoxNumber1/2/3`. -/
structure Boxes where
  BoxNumber1 : Option BoxRecord
  BoxNumber2 : Option BoxRecord
  BoxNumber3 : Option BoxRecord
  deriving DecidableEq

/-- One shape candidate from `process_frame_boxes`: its bounding
rectangle `(x, y, w, h)`. -/
structure DetBox where
  x : Int
  y : Int
  w : Int
  h : Int
  deriving DecidableEq

/-- The dominant colour `most_common_rgb_in_region(frame, x, y, x2, y2)`
of a candidate's bounding rectangle, for a frame abstracted by its
dominant-colour oracle `fc`. -/
def colorOfBox (fc : Int → Int → Int → Int → Color) (b : DetBox) : Color :=
  fc b.x b.y (b.x + b.w) (b.y + b.h)

/-- Does an optional cached record match a colour
(`record and record.color == color`)? -/
def slotMatches (o : Option BoxRecord) (c : Color) : Bool :=
  match o with
  | some r => r.color = c
  | none => false

/-- `_find_matching_box`, returning which slot (1/2/3) holds the first
record whose colour equals `c`.  In Python the returned record aliases
the slot, so an update through it updates the slot. -/
def find_matching_slot (bs : Boxes) (c : Color) : Option Nat :=
  if slotMatches bs.BoxNumber1 c then some 1
  else if slotMatches bs.BoxNumber2 c then some 2
  else if slotMatches bs.BoxNumber3 c then some 3
  else none

/-- Overwrite the matched slot's record's `center` and `bounds`
(`match.center = new_center; match.bounds = (x, y, x2, y2)`), keeping its
colour. -/
def updateSlot (bs : Boxes) (slot : Nat) (center : Int × Int)
    (bounds : Int × Int × Int × Int) : Boxes :=
  if slot = 1 then
    { bs with BoxNumber1 :=
        bs.BoxNumber1.map fun r => { r with center := center, bounds := bounds } }
  else if slot = 2 then
    { bs with BoxNumber2 :=
        bs.BoxNumber2.map fun r => { r with center := center, bounds := bounds } }
  else if slot = 3 then
    { bs with BoxNumber3 :=
        bs.BoxNumber3.map fun r => { r with center := center, bounds := bounds } }
  else bs

/-- The loop accumulator of `_handle_boxes`: the cached records plus
`success_count` and `clickable`. -/
structure ScanAcc where
  boxes : Boxes
  success_count : Nat
  clickable : Bool
  deriving DecidableEq

/-- One iteration of the loop in `_handle_boxes` (lines 443–457): a
success-coloured candidate bumps `success_count`; any other candidate
sets `clickable` and, when its colour matches a cached record, refreshes
that record's center and bounds. -/
def handle_boxes_step (success : Color) (fc : Int → Int → Int → Int → Color)
    (acc : ScanAcc) (b : DetBox) : ScanAcc :=
  let color := colorOfBox fc b
  if color = success then
    { acc with success_count := acc.success_count + 1 }
  else
    let acc1 : ScanAcc := { acc with clickable := true }
    let newCenter : Int × Int := (b.x + b.w / 2, b.y + b.h / 2)
    let newBounds : Int × Int × Int × Int := (b.x, b.y, b.x + b.w, b.y + b.h)
    match find_matching_slot acc1.boxes color with
    | some s =>
        { acc1 with boxes := updateSlot acc1.boxes s newCenter newBounds }
    | none => acc1

/-- The candidate loop of `_handle_boxes` over all shape candidates. -/
def scanBoxes (success : Color) (fc : Int → Int → Int → Int → Color)
    (bs : Boxes) (boxes : List DetBox) : ScanAcc :=
  boxes.foldl (handle_boxes_step success fc) ⟨bs, 0, false⟩

/-- Lines 462–468 of `_handle_boxes`: the success-count → slot mapping
selecting the click target. -/
def targetFor (acc : ScanAcc) : Option BoxRecord :=
  if acc.success_count = 0 then acc.boxes.BoxNumber1
  else if acc.success_count = 1 then acc.boxes.BoxNumber2
  else if acc.success_count = 2 then acc.boxes.BoxNumber3
  else none

/-- `click_box`: the absolute click position for a record, its center
translated by the capture region's corner. -/
def click_box (region : Region) (r : BoxRecord) : Int × Int :=
  (region.left + r.center.1, region.top + r.center.2)

/-- `_handle_boxes`: scan the candidates, then — when at least one live
candidate was seen — click the record mapped from the success count, if
that slot is cached.  Result: `(new records, issued click position,
action taken)`. -/
def handle_boxes (success : Color) (region : Region)
    (fc : Int → Int → Int → Int → Color) (bs : Boxes)
    (boxes : List DetBox) : Boxes × Option (Int × Int) × Bool :=
  let acc := scanBoxes success fc bs boxes
  if acc.clickable = false then (acc.boxes, none, false)
  else
    match targetFor acc with
    | some r => (acc.boxes, some (click_box region r), true)
    | none => (acc.boxes, none, false)

/-- Lines 519–522 of `FivemAutoFish.run`: the fail-safe timer check.
Given the previous `last_no_detection` timestamp and the current time
`now`, it fires exactly when `now - last > delay`, and firing resets the
timestamp to `now`. -/
def failSafeStep (delay last now : ℚ) : Bool × ℚ :=
  if delay < now - last then (true, now) else (false, last)

/-- The times at which the fail-safe fires along a sequence of cycle
times, threading `last_no_detection` through `failSafeStep` (this models
consecutive cycles in which detections exist but no regular action is
taken, so the timestamp changes only when the fail-safe fires). -/
def fireTimes (delay : ℚ) : ℚ → List ℚ → List ℚ
  | _, [] => []
  | last, t :: ts =>
      let s := failSafeStep delay last t
      if s.1 then t :: fireTimes delay s.2 ts else fireTimes delay s.2 ts

end FivemAutoFish

/-! ## Lemmas about the bar recognizer -/

namespace NewMiniGame

lemma detectPhase_state (nc : ℚ) (g : State) (a : Nat)
    (s : List (Nat × ℚ)) : (detectPhase nc g a s).state = g.state := by
  unfold detectPhase
  split <;> rfl

lemma detectPhase_starting_area (nc : ℚ) (g : State) (a : Nat)
    (s : List (Nat × ℚ)) :
    (detectPhase nc g a s).starting_area = g.starting_area := by
  unfold detectPhase
  split <;> rfl

lemma detectPhase_zero (nc : ℚ) (g : State) (s : List (Nat × ℚ)) :
    detectPhase nc g 0 s = g := by
  unfold detectPhase
  simp

lemma transitionPhase_found_intercept (cd nd : ℚ) (g : State) (a : Nat)
    (hs : g.state = FOUND) (hsa : g.starting_area ≠ 0)
    (hr : (a : ℚ) / (g.starting_area : ℚ) ≤ cd) (hn : 0 < g.number) :
    transitionPhase cd nd g a = { g with state := INTERCEPTION, prev_area := a } := by
  unfold transitionPhase
  rw [if_pos ⟨hs, hsa⟩, if_pos hr, if_pos hn]

lemma transitionPhase_area0_other (cd nd : ℚ) (g : State)
    (h : ¬(g.state = FOUND ∧ g.starting_area ≠ 0)) :
    transitionPhase cd nd g 0 =
      { g with state := RESET, starting_area := 0, number := 0, prev_area := 0 } := by
  unfold transitionPhase
  rw [if_neg h, if_neg (by simp), if_pos rfl]

lemma transitionPhase_found_no_number (cd nd : ℚ) (g : State) (a : Nat)
    (hs : g.state = FOUND) (hn : g.number = 0) (ha : 0 < a) :
    (transitionPhase cd nd g a).state = FOUND ∧
    (transitionPhase cd nd g a).number = 0 := by
  unfold transitionPhase
  by_cases h1 : g.state = FOUND ∧ g.starting_area ≠ 0
  · rw [if_pos h1]
    by_cases h2 : (a : ℚ) / (g.starting_area : ℚ) ≤ cd
    · rw [if_pos h2, if_neg (by omega)]
      exact ⟨hs, hn⟩
    · rw [if_neg h2]
      exact ⟨hs, hn⟩
  · rw [if_neg h1, if_neg (by simp [RESET, FOUND] at hs ⊢; omega),
      if_neg (by omega), if_neg (by tauto)]
    exact ⟨hs, hn⟩

lemma transitionPhase_interception_entry (cd nd : ℚ) (g : State) (a : Nat)
    (hg : g.state ≠ INTERCEPTION)
    (h : (transitionPhase cd nd g a).state = INTERCEPTION) :
    g.state = FOUND ∧ g.starting_area ≠ 0 ∧
      (a : ℚ) / (g.starting_area : ℚ) ≤ cd ∧ 0 < g.number ∧
      transitionPhase cd nd g a =
        { g with state := INTERCEPTION, prev_area := a } := by
  unfold transitionPhase at h ⊢
  by_cases h1 : g.state = FOUND ∧ g.starting_area ≠ 0
  · rw [if_pos h1] at h ⊢
    by_cases h2 : (a : ℚ) / (g.starting_area : ℚ) ≤ cd
    · rw [if_pos h2] at h ⊢
      by_cases h3 : 0 < g.number
      · rw [if_pos h3] at h ⊢
        exact ⟨h1.1, h1.2, h2, h3, rfl⟩
      · rw [if_neg h3] at h
        exact absurd h hg
    · rw [if_neg h2] at h
      exact absurd h hg
  · rw [if_neg h1] at h
    by_cases h2 : g.state = RESET ∧ 0 < a
    · rw [if_pos h2] at h
      simp [FOUND, INTERCEPTION] at h
    · rw [if_neg h2] at h
      by_cases h3 : a = 0
      · rw [if_pos h3] at h
        simp [RESET, INTERCEPTION] at h
      · rw [if_neg h3] at h
        by_cases h4 : a ≠ 0 ∧ g.state = FOUND ∧ g.starting_area ≠ 0 ∧
            nd ≤ (a : ℚ) / (g.starting_area : ℚ)
        · exact absurd ⟨h4.2.1, h4.2.2.1⟩ h1
        · rw [if_neg h4] at h
          exact absurd h hg

lemma actionPhase_fire (g : State) (h1 : g.state = INTERCEPTION)
    (h2 : g.number ≠ 0) :
    actionPhase g =
      ({ g with state := RESET, number := 0, number_reset_flag := false,
                prev_area := 0, starting_area := 0 },
       some (min 3 (g.number - 1)), true) := by
  unfold actionPhase
  rw [if_pos ⟨h1, h2⟩]
  simp [vk_keys]

lemma actionPhase_skip (g : State) (h : ¬(g.state = INTERCEPTION ∧ g.number ≠ 0)) :
    actionPhase g = (g, none, g.state != RESET) := by
  unfold actionPhase
  rw [if_neg h]

/-! ## Claims C1, C2, C3 -/

unseal Rat.mul Rat.inv Rat.sub Rat.add in
/-- C1 (counterexample): the claim "a zero-area frame always forces
RESET with starting_area = 0" is false: from FOUND with
starting_area = 100 and no recognized numeral, one `run` step on a frame
of area 0 (with compare_dif = 2/5) stays in FOUND and keeps
starting_area = 100. -/
theorem c1_counterexample :
    (run (2/5) (3/2) (4/5) ⟨FOUND, 100, 50, 0, false⟩ 0 []).1.state = FOUND ∧
    (run (2/5) (3/2) (4/5) ⟨FOUND, 100, 50, 0, false⟩ 0 []).1.starting_area = 100 ∧
    FOUND ≠ RESET := by decide

/-- C1 (amended): one `run` step on a frame of segmented area 0 leaves
the machine in RESET with starting_area = 0 and number = 0, provided
compare_dif is nonnegative and the prior state is not
FOUND-with-nonzero-starting_area-and-numeral-0 (in FOUND with a numeral
the reset happens via the interception key press; in FOUND with numeral
0 the machine stays FOUND, see the counterexample). -/
theorem c1_zero_area_resets (cd nd nc : ℚ) (g : State)
    (scores : List (Nat × ℚ)) (hc : 0 ≤ cd)
    (h : g.state ≠ FOUND ∨ g.starting_area = 0 ∨ 0 < g.number) :
    (run cd nd nc g 0 scores).1.state = RESET ∧
    (run cd nd nc g 0 scores).1.starting_area = 0 ∧
    (run cd nd nc g 0 scores).1.number = 0 := by
  unfold run
  rw [detectPhase_zero]
  by_cases hA : g.state = FOUND ∧ g.starting_area ≠ 0
  · have hn : 0 < g.number := by tauto
    have hr : ((0 : Nat) : ℚ) / (g.starting_area : ℚ) ≤ cd := by
      simpa using hc
    rw [transitionPhase_found_intercept cd nd g 0 hA.1 hA.2 hr hn,
      actionPhase_fire _ rfl (by simpa using Nat.pos_iff_ne_zero.mp hn)]
    exact ⟨rfl, rfl, rfl⟩
  · rw [transitionPhase_area0_other cd nd g hA,
      actionPhase_skip _ (by simp [RESET, INTERCEPTION])]
    exact ⟨rfl, rfl, rfl⟩

/-- C2: INTERCEPTION is entered only from FOUND, only when
current_area / starting_area ≤ compare_dif and the numeral at the check
(after this frame's detection pass) is positive; and a step taken in
FOUND whose detection pass leaves the numeral at 0 ends in FOUND
whenever the area is nonzero. -/
theorem c2_interception_gate (cd nd nc : ℚ) (g : State) (area : Nat)
    (scores : List (Nat × ℚ)) :
    (g.state ≠ INTERCEPTION →
      (transitionPhase cd nd (detectPhase nc g area scores) area).state =
        INTERCEPTION →
      g.state = FOUND ∧ g.starting_area ≠ 0 ∧
        (area : ℚ) / (g.starting_area : ℚ) ≤ cd ∧
        0 < (detectPhase nc g area scores).number) ∧
    (g.state = FOUND → (detectPhase nc g area scores).number = 0 →
      0 < area → (run cd nd nc g area scores).1.state = FOUND) := by
  constructor
  · intro hg hi
    have hg1 : (detectPhase nc g area scores).state ≠ INTERCEPTION := by
      rw [detectPhase_state]; exact hg
    obtain ⟨h1, h2, h3, h4, _⟩ :=
      transitionPhase_interception_entry cd nd _ area hg1 hi
    rw [detectPhase_state] at h1
    rw [detectPhase_starting_area] at h2 h3
    exact ⟨h1, h2, h3, h4⟩
  · intro hs hn ha
    unfold run
    have hfound : (detectPhase nc g area scores).state = FOUND := by
      rw [detectPhase_state]; exact hs
    obtain ⟨hstate, hnum⟩ :=
      transitionPhase_found_no_number cd nd _ area hfound hn ha
    rw [actionPhase_skip _ (by rw [hstate]; simp [FOUND, INTERCEPTION])]
    exact hstate

/-- C3: whenever a `run` step arrives in INTERCEPTION (entering it during
the step), the numeral n there is positive, exactly one key is emitted
with index n - 1 clamped to [0, 3], the state resets to RESET with
number = 0 and starting_area = 0, and the step reports an action; a step
that does not begin in INTERCEPTION never ends in it (so along any
execution from the initial RESET state no step begins in INTERCEPTION),
and a step beginning in RESET emits no key. -/
theorem c3_interception_action (cd nd nc : ℚ) (g : State) (area : Nat)
    (scores : List (Nat × ℚ)) :
    (g.state ≠ INTERCEPTION →
      (transitionPhase cd nd (detectPhase nc g area scores) area).state =
        INTERCEPTION →
      0 < (transitionPhase cd nd (detectPhase nc g area scores) area).number ∧
      (run cd nd nc g area scores).2.1 =
        some (min 3
          ((transitionPhase cd nd (detectPhase nc g area scores) area).number - 1)) ∧
      (run cd nd nc g area scores).1.state = RESET ∧
      (run cd nd nc g area scores).1.number = 0 ∧
      (run cd nd nc g area scores).1.starting_area = 0 ∧
      (run cd nd nc g area scores).2.2 = true) ∧
    (g.state ≠ INTERCEPTION → (run cd nd nc g area scores).1.state ≠ INTERCEPTION) ∧
    (g.state = RESET → (run cd nd nc g area scores).2.1 = none) := by
  refine ⟨?_, ?_, ?_⟩
  · intro hg hi
    have hg1 : (detectPhase nc g area scores).state ≠ INTERCEPTION := by
      rw [detectPhase_state]; exact hg
    obtain ⟨_, _, _, h4, heq⟩ :=
      transitionPhase_interception_entry cd nd _ area hg1 hi
    unfold run
    rw [heq] at hi ⊢
    have hfire := actionPhase_fire _ hi (by simpa using Nat.pos_iff_ne_zero.mp h4)
    rw [hfire]
    refine ⟨h4, rfl, rfl, rfl, rfl, rfl⟩
  · intro hg
    by_cases hi :
        (transitionPhase cd nd (detectPhase nc g area scores) area).state =
          INTERCEPTION
    · have hg1 : (detectPhase nc g area scores).state ≠ INTERCEPTION := by
        rw [detectPhase_state]; exact hg
      obtain ⟨_, _, _, h4, heq⟩ :=
        transitionPhase_interception_entry cd nd _ area hg1 hi
      unfold run
      rw [heq] at hi ⊢
      rw [actionPhase_fire _ hi (by simpa using Nat.pos_iff_ne_zero.mp h4)]
      simp [RESET, INTERCEPTION]
    · unfold run
      rw [actionPhase_skip _ (by tauto)]
      exact hi
  · intro hs
    have hg1 : (detectPhase nc g area scores).state = RESET := by
      rw [detectPhase_state]; exact hs
    have hni :
        (transitionPhase cd nd (detectPhase nc g area scores) area).state ≠
          INTERCEPTION := by
      unfold transitionPhase
      rw [if_neg (by simp [hg1, RESET, FOUND])]
      by_cases h2 : (detectPhase nc g area scores).state = RESET ∧ 0 < area
      · rw [if_pos h2]
        simp [FOUND, INTERCEPTION]
      · rw [if_neg h2]
        by_cases h3 : area = 0
        · rw [if_pos h3]
          simp [RESET, INTERCEPTION]
        · rw [if_neg h3, if_neg (by simp [hg1, RESET, FOUND])]
          simp [hg1, RESET, INTERCEPTION]
    unfold run
    rw [actionPhase_skip _ (by tauto)]

unseal Rat.mul Rat.inv Rat.sub Rat.add in
/-- Witness for C1 (amended): a zero-area step from INTERCEPTION resets. -/
theorem c1_zero_area_resets_witness :
    (0 : ℚ) ≤ 2/5 ∧
    ((run (2/5) (3/2) (4/5) ⟨INTERCEPTION, 50, 10, 3, false⟩ 0 []).1.state = RESET ∧
     (run (2/5) (3/2) (4/5) ⟨INTERCEPTION, 50, 10, 3, false⟩ 0 []).1.starting_area = 0 ∧
     (run (2/5) (3/2) (4/5) ⟨INTERCEPTION, 50, 10, 3, false⟩ 0 []).1.number = 0) :=
  ⟨by decide,
   c1_zero_area_resets (2/5) (3/2) (4/5) ⟨INTERCEPTION, 50, 10, 3, false⟩ []
     (by decide) (Or.inl (by decide))⟩

unseal Rat.mul Rat.inv Rat.sub Rat.add in
/-- Witness for C2 at concrete inputs: an interception entry at ratio
30/100 ≤ 2/5 with numeral 2, and a FOUND step with numeral 0 that stays
in FOUND. -/
theorem c2_interception_gate_witness :
    ((⟨FOUND, 100, 50, 2, false⟩ : State).state = FOUND ∧
      (⟨FOUND, 100, 50, 2, false⟩ : State).starting_area ≠ 0 ∧
      ((30 : Nat) : ℚ) /
        (((⟨FOUND, 100, 50, 2, false⟩ : State).starting_area : Nat) : ℚ) ≤ 2/5 ∧
      0 < (detectPhase (4/5) ⟨FOUND, 100, 50, 2, false⟩ 30 []).number) ∧
    (run (2/5) (3/2) (4/5) ⟨FOUND, 100, 50, 0, false⟩ 30 []).1.state = FOUND :=
  ⟨(c2_interception_gate (2/5) (3/2) (4/5) ⟨FOUND, 100, 50, 2, false⟩ 30 []).1
      (by decide) (by decide),
   (c2_interception_gate (2/5) (3/2) (4/5) ⟨FOUND, 100, 50, 0, false⟩ 30 []).2
      rfl (by decide) (by decide)⟩

unseal Rat.mul Rat.inv Rat.sub Rat.add in
/-- Witness for C3 at concrete inputs: arriving in INTERCEPTION with
numeral 2 emits key index 1 and resets; a step from RESET emits none. -/
theorem c3_interception_action_witness :
    (0 < (transitionPhase (2/5) (3/2)
        (detectPhase (4/5) ⟨FOUND, 100, 50, 2, false⟩ 30 []) 30).number ∧
     (run (2/5) (3/2) (4/5) ⟨FOUND, 100, 50, 2, false⟩ 30 []).2.1 =
       some (min 3 ((transitionPhase (2/5) (3/2)
         (detectPhase (4/5) ⟨FOUND, 100, 50, 2, false⟩ 30 []) 30).number - 1)) ∧
     (run (2/5) (3/2) (4/5) ⟨FOUND, 100, 50, 2, false⟩ 30 []).1.state = RESET ∧
     (run (2/5) (3/2) (4/5) ⟨FOUND, 100, 50, 2, false⟩ 30 []).1.number = 0 ∧
     (run (2/5) (3/2) (4/5) ⟨FOUND, 100, 50, 2, false⟩ 30 []).1.starting_area = 0 ∧
     (run (2/5) (3/2) (4/5) ⟨FOUND, 100, 50, 2, false⟩ 30 []).2.2 = true) ∧
    (run (2/5) (3/2) (4/5) ⟨FOUND, 120, 50, 0, true⟩ 40 []).1.state ≠ INTERCEPTION ∧
    (run (2/5) (3/2) (4/5) ⟨RESET, 0, 0, 0, false⟩ 25 []).2.1 = none :=
  ⟨(c3_interception_action (2/5) (3/2) (4/5) ⟨FOUND, 100, 50, 2, false⟩ 30 []).1
      (by decide) (by decide),
   (c3_interception_action (2/5) (3/2) (4/5) ⟨FOUND, 120, 50, 0, true⟩ 40 []).2.1
      (by decide),
   (c3_interception_action (2/5) (3/2) (4/5) ⟨RESET, 0, 0, 0, false⟩ 25 []).2.2 rfl⟩

/-! ## Lemmas about numeral detection -/

lemma scanStep_fst_le (conf : ℚ) (acc : ℚ × Nat) (p : Nat × ℚ) :
    acc.1 ≤ (scanStep conf acc p).1 := by
  unfold scanStep
  split_ifs with h
  · exact le_of_lt h.2
  · exact le_rfl

lemma scan_foldl_fst_le (conf : ℚ) (l : List (Nat × ℚ)) (acc : ℚ × Nat) :
    acc.1 ≤ (l.foldl (scanStep conf) acc).1 := by
  induction l generalizing acc with
  | nil => exact le_rfl
  | cons p ps ih =>
      rw [List.foldl_cons]
      exact le_trans (scanStep_fst_le conf acc p) (ih _)

lemma scan_foldl_qual_le (conf : ℚ) (l : List (Nat × ℚ)) (acc : ℚ × Nat) :
    ∀ q ∈ l, conf ≤ q.2 → q.2 ≤ (l.foldl (scanStep conf) acc).1 := by
  induction l generalizing acc with
  | nil => simp
  | cons p ps ih =>
      intro q hq hcq
      rw [List.foldl_cons]
      rcases List.mem_cons.mp hq with rfl | hq
      · by_cases h : conf ≤ q.2 ∧ acc.1 < q.2
        · have hs : scanStep conf acc q = (q.2, q.1) := by
            unfold scanStep
            rw [if_pos h]
          rw [hs]
          exact scan_foldl_fst_le conf ps (q.2, q.1)
        · have hle : q.2 ≤ acc.1 := by
            rcases not_and_or.mp h with h | h
            · exact absurd hcq h
            · exact le_of_not_lt h
          exact le_trans (le_trans hle (scanStep_fst_le conf acc q))
            (scan_foldl_fst_le conf ps _)
      · exact ih _ q hq hcq

lemma scan_foldl_result (conf : ℚ) (l : List (Nat × ℚ)) (acc : ℚ × Nat) :
    l.foldl (scanStep conf) acc = acc ∨
    ∃ p ∈ l, l.foldl (scanStep conf) acc = (p.2, p.1) ∧ conf ≤ p.2 := by
  induction l generalizing acc with
  | nil => exact Or.inl rfl
  | cons p ps ih =>
      rw [List.foldl_cons]
      by_cases h : conf ≤ p.2 ∧ acc.1 < p.2
      · have hs : scanStep conf acc p = (p.2, p.1) := by
          unfold scanStep
          rw [if_pos h]
        rw [hs]
        rcases ih (p.2, p.1) with h1 | ⟨q, hq, h1, h2⟩
        · exact Or.inr ⟨p, List.mem_cons_self p ps, h1, h.1⟩
        · exact Or.inr ⟨q, List.mem_cons_of_mem p hq, h1, h2⟩
      · have hs : scanStep conf acc p = acc := by
          unfold scanStep
          rw [if_neg h]
        rw [hs]
        rcases ih acc with h1 | ⟨q, hq, h1, h2⟩
        · exact Or.inl h1
        · exact Or.inr ⟨q, List.mem_cons_of_mem p hq, h1, h2⟩

lemma scan_foldl_id_of_lt (conf : ℚ) (l : List (Nat × ℚ)) (acc : ℚ × Nat)
    (h : ∀ p ∈ l, p.2 < conf) : l.foldl (scanStep conf) acc = acc := by
  induction l generalizing acc with
  | nil => rfl
  | cons p ps ih =>
      rw [List.foldl_cons]
      have hs : scanStep conf acc p = acc := by
        unfold scanStep
        rw [if_neg (by
          intro hc
          exact absurd hc.1 (not_le.mpr (h p (List.mem_cons_self p ps))))]
      rw [hs]
      exact ih acc (fun q hq => h q (List.mem_cons_of_mem p hq))

lemma maxStep_left_le (p a : Nat × ℚ) : p.2 ≤ (maxStep p a).2 := by
  unfold maxStep
  split_ifs with h
  · exact le_of_lt h
  · exact le_rfl

lemma maxStep_right_le (p a : Nat × ℚ) : a.2 ≤ (maxStep p a).2 := by
  unfold maxStep
  split_ifs with h
  · exact le_rfl
  · exact le_of_not_lt h

lemma maxStep_cases (p a : Nat × ℚ) : maxStep p a = p ∨ maxStep p a = a := by
  unfold maxStep
  split_ifs with h
  · exact Or.inr rfl
  · exact Or.inl rfl

lemma foldl_maxStep_spec (ps : List (Nat × ℚ)) (p : Nat × ℚ) :
    ps.foldl maxStep p ∈ p :: ps ∧ p.2 ≤ (ps.foldl maxStep p).2 ∧
    ∀ q ∈ ps, q.2 ≤ (ps.foldl maxStep p).2 := by
  induction ps generalizing p with
  | nil => exact ⟨List.mem_cons_self p [], le_rfl, by simp⟩
  | cons a as ih =>
      rw [List.foldl_cons]
      obtain ⟨h1, h2, h3⟩ := ih (maxStep p a)
      refine ⟨?_, le_trans (maxStep_left_le p a) h2, ?_⟩
      · rcases List.mem_cons.mp h1 with h1 | h1
        · rcases maxStep_cases p a with hm | hm
          · rw [h1, hm]
            exact List.mem_cons_self p (a :: as)
          · rw [h1, hm]
            exact List.mem_cons_of_mem p (List.mem_cons_self a as)
        · exact List.mem_cons_of_mem p (List.mem_cons_of_mem a h1)
      · intro q hq
        rcases List.mem_cons.mp hq with rfl | hq
        · exact le_trans (maxStep_right_le p q) h2
        · exact h3 q hq

lemma pyMaxSnd_spec (l : List (Nat × ℚ)) (m : Nat × ℚ)
    (h : pyMaxSnd l = some m) : m ∈ l ∧ ∀ q ∈ l, q.2 ≤ m.2 := by
  cases l with
  | nil => exact absurd h (by simp [pyMaxSnd])
  | cons p ps =>
      have hm : m = ps.foldl maxStep p := by
        have : some (ps.foldl maxStep p) = some m := h
        exact (Option.some.inj this).symm
      obtain ⟨h1, h2, h3⟩ := foldl_maxStep_spec ps p
      subst hm
      refine ⟨h1, ?_⟩
      intro q hq
      rcases List.mem_cons.mp hq with rfl | hq
      · exact h2
      · exact h3 q hq

/-! ## Claims C4, C5 -/

unseal Rat.mul Rat.inv Rat.sub Rat.add in
/-- C4 (counterexample): the claim "a stored numeral n > 0 is never reset
by a single failed frame" is false when the one-shot reset flag is
pending: with number = 2 and number_reset_flag = true, a frame whose only
score 1/10 is below both thresholds leaves the stored numeral at 0. -/
theorem c4_counterexample :
    (detect_number (4/5) [(1, (1:ℚ)/10)] ⟨2, true⟩).number = 0 ∧
    ((1:ℚ)/10 < 4/5 ∧ (1:ℚ)/10 < 35/100) ∧ (0 : Nat) ≠ 2 := by decide

/-- C4 (amended): numeral recognition is sticky provided no one-shot
reset is pending: with number_reset_flag = false, a stored numeral n and
a frame all of whose per-template best scores are below both the
configured confidence threshold and the absolute floor 0.35,
`_detect_number` leaves the state unchanged. -/
theorem c4_numeral_sticky (conf : ℚ) (scores : List (Nat × ℚ)) (n : Nat)
    (h : ∀ p ∈ scores, p.2 < conf ∧ p.2 < (35:ℚ)/100) :
    detect_number conf scores ⟨n, false⟩ = ⟨n, false⟩ := by
  have hd : detectedOf conf scores = 0 := by
    unfold detectedOf scanScores
    rw [scan_foldl_id_of_lt conf scores _ (fun p hp => (h p hp).1)]
    by_cases hne : scores = []
    · rw [if_neg (by simp [hne])]
    · rw [if_pos ⟨rfl, hne⟩]
      cases hm : pyMaxSnd scores with
      | none => rfl
      | some m =>
          obtain ⟨hmem, _⟩ := pyMaxSnd_spec scores m hm
          show (if (35:ℚ)/100 ≤ m.2 then m.1 else 0) = 0
          rw [if_neg (not_le.mpr (h m hmem).2)]
  unfold detect_number
  rw [hd]
  simp

unseal Rat.mul Rat.inv Rat.sub Rat.add in
/-- Witness for C4 (amended) at a concrete input. -/
theorem c4_numeral_sticky_witness :
    (∀ p ∈ [((1:Nat), (1:ℚ)/10), (2, 2/10)], p.2 < 4/5 ∧ p.2 < (35:ℚ)/100) ∧
    detect_number (4/5) [((1:Nat), (1:ℚ)/10), (2, 2/10)] ⟨3, false⟩ = ⟨3, false⟩ :=
  ⟨by decide, c4_numeral_sticky (4/5) [((1:Nat), (1:ℚ)/10), (2, 2/10)] 3 (by decide)⟩

unseal Rat.mul Rat.inv Rat.sub Rat.add in
/-- C5 (counterexample): the claim's fallback requires the best score to
strictly exceed the floor 0.35, but the code uses `>= 0.35`: with a
single score of exactly 35/100 (below the confidence threshold 4/5),
detection fires. -/
theorem c5_counterexample :
    detectedOf (4/5) [(1, (35:ℚ)/100)] = 1 ∧
    ¬((35:ℚ)/100 < (35:ℚ)/100) ∧ ((35:ℚ)/100 < 4/5) := by decide

/-- C5 (amended): `_detect_number`'s selection policy: (i) when some
score reaches the confidence threshold, the selected numeral's score
reaches it and is maximal among those that do; (ii) when no score
reaches the threshold and the list is nonempty, there is a maximal
element m and the selection is m's numeral exactly when m's score is at
least (not strictly above) 35/100, else no detection; (iii) an empty
score list yields no detection. -/
theorem c5_selection_policy (conf : ℚ) (scores : List (Nat × ℚ))
    (hconf : -1 < conf) (hpos : ∀ p ∈ scores, 0 < p.1) :
    ((∃ p ∈ scores, conf ≤ p.2) →
      ∃ p ∈ scores, detectedOf conf scores = p.1 ∧ conf ≤ p.2 ∧
        ∀ q ∈ scores, conf ≤ q.2 → q.2 ≤ p.2) ∧
    ((∀ p ∈ scores, p.2 < conf) → scores ≠ [] →
      ∃ m ∈ scores, (∀ q ∈ scores, q.2 ≤ m.2) ∧
        detectedOf conf scores = if (35:ℚ)/100 ≤ m.2 then m.1 else 0) ∧
    (scores = [] → detectedOf conf scores = 0) := by
  refine ⟨?_, ?_, ?_⟩
  · rintro ⟨p, hp, hcp⟩
    rcases scan_foldl_result conf scores (-1, 0) with hres | ⟨r, hr, hres, hcr⟩
    · exfalso
      have := scan_foldl_qual_le conf scores (-1, 0) p hp hcp
      rw [hres] at this
      exact absurd (le_trans hcp this) (not_le.mpr hconf)
    · refine ⟨r, hr, ?_, hcr, ?_⟩
      · unfold detectedOf scanScores
        rw [hres]
        rw [if_neg (by
          intro hc
          exact absurd (hc.1 : r.1 = 0) (Nat.pos_iff_ne_zero.mp (hpos r hr)))]
      · intro q hq hcq
        have := scan_foldl_qual_le conf scores (-1, 0) q hq hcq
        rw [hres] at this
        exact this
  · intro hlt hne
    cases hsc : pyMaxSnd scores with
    | none =>
        cases scores with
        | nil => exact absurd rfl hne
        | cons p ps => exact absurd hsc (by simp [pyMaxSnd])
    | some m =>
        obtain ⟨hmem, hmax⟩ := pyMaxSnd_spec scores m hsc
        refine ⟨m, hmem, hmax, ?_⟩
        unfold detectedOf scanScores
        rw [scan_foldl_id_of_lt conf scores _ hlt, if_pos ⟨rfl, hne⟩, hsc]
  · intro h
    subst h
    rfl

unseal Rat.mul Rat.inv Rat.sub Rat.add in
/-- Witness for C5 (amended) at concrete inputs: a confident selection,
a fallback selection, and the empty list. -/
theorem c5_selection_policy_witness :
    (∃ p ∈ [((1:Nat), (9:ℚ)/10), (2, 1/2)],
      detectedOf (4/5) [((1:Nat), (9:ℚ)/10), (2, 1/2)] = p.1 ∧ (4:ℚ)/5 ≤ p.2 ∧
      ∀ q ∈ [((1:Nat), (9:ℚ)/10), (2, 1/2)], (4:ℚ)/5 ≤ q.2 → q.2 ≤ p.2) ∧
    (∃ m ∈ [((1:Nat), (1:ℚ)/10), (3, 1/2)],
      (∀ q ∈ [((1:Nat), (1:ℚ)/10), (3, 1/2)], q.2 ≤ m.2) ∧
      detectedOf (4/5) [((1:Nat), (1:ℚ)/10), (3, 1/2)] =
        if (35:ℚ)/100 ≤ m.2 then m.1 else 0) ∧
    detectedOf (4/5) ([] : List (Nat × ℚ)) = 0 :=
  ⟨(c5_selection_policy (4/5) [((1:Nat), (9:ℚ)/10), (2, 1/2)]
      (by decide) (by decide)).1 (by decide),
   (c5_selection_policy (4/5) [((1:Nat), (1:ℚ)/10), (3, 1/2)]
      (by decide) (by decide)).2.1 (by decide) (by decide),
   (c5_selection_policy (4/5) ([] : List (Nat × ℚ))
      (by decide) (by decide)).2.2 rfl⟩

end NewMiniGame

/-! ## Lemmas about the box tracker -/

namespace FivemAutoFish

lemma handle_boxes_step_clickable (success : Color)
    (fc : Int → Int → Int → Int → Color) (acc : ScanAcc) (b : DetBox) :
    (handle_boxes_step success fc acc b).clickable =
      (acc.clickable || decide (colorOfBox fc b ≠ success)) := by
  unfold handle_boxes_step
  by_cases h : colorOfBox fc b = success
  · simp [h]
  · rcases hm : find_matching_slot acc.boxes (colorOfBox fc b) with _ | s <;>
      simp [h, hm]

lemma handle_boxes_step_success_count (success : Color)
    (fc : Int → Int → Int → Int → Color) (acc : ScanAcc) (b : DetBox) :
    (handle_boxes_step success fc acc b).success_count =
      acc.success_count + (if colorOfBox fc b = success then 1 else 0) := by
  unfold handle_boxes_step
  by_cases h : colorOfBox fc b = success
  · simp [h]
  · rcases hm : find_matching_slot acc.boxes (colorOfBox fc b) with _ | s <;>
      simp [h, hm]

lemma foldl_step_clickable (success : Color)
    (fc : Int → Int → Int → Int → Color) (l : List DetBox) (acc : ScanAcc) :
    (l.foldl (handle_boxes_step success fc) acc).clickable =
      (acc.clickable || l.any fun b => decide (colorOfBox fc b ≠ success)) := by
  induction l generalizing acc with
  | nil => simp
  | cons b bs ih =>
      rw [List.foldl_cons, ih, handle_boxes_step_clickable]
      simp [Bool.or_assoc]

lemma foldl_step_success_count (success : Color)
    (fc : Int → Int → Int → Int → Color) (l : List DetBox) (acc : ScanAcc) :
    (l.foldl (handle_boxes_step success fc) acc).success_count =
      acc.success_count +
        (l.countP fun b => decide (colorOfBox fc b = success)) := by
  induction l generalizing acc with
  | nil => simp
  | cons b bs ih =>
      rw [List.foldl_cons, ih, handle_boxes_step_success_count,
        List.countP_cons]
      by_cases h : colorOfBox fc b = success
      · simp [h]
        omega
      · simp [h]

lemma scanBoxes_clickable (success : Color)
    (fc : Int → Int → Int → Int → Color) (bs : Boxes) (boxes : List DetBox) :
    (scanBoxes success fc bs boxes).clickable =
      (boxes.any fun b => decide (colorOfBox fc b ≠ success)) := by
  unfold scanBoxes
  rw [foldl_step_clickable]
  simp

lemma scanBoxes_success_count (success : Color)
    (fc : Int → Int → Int → Int → Color) (bs : Boxes) (boxes : List DetBox) :
    (scanBoxes success fc bs boxes).success_count =
      boxes.countP fun b => decide (colorOfBox fc b = success) := by
  unfold scanBoxes
  rw [foldl_step_success_count]
  simp

/-! ## Claims C6, C8, C10 -/

/-- C6: when at least one live (non-success-coloured) candidate exists,
the click target is the cached record of slot 1/2/3 according to the
count of success-coloured candidates being 0/1/2; a cached mapped slot
yields exactly one click at that record's center translated by
(region.left, region.top) and reports an action; an empty mapped slot
yields no click and no action. -/
theorem c6_success_count_slot_mapping (success : Color) (region : Region)
    (fc : Int → Int → Int → Int → Color) (bs : Boxes) (boxes : List DetBox)
    (hlive : ∃ b ∈ boxes, colorOfBox fc b ≠ success) :
    ((boxes.countP fun b => decide (colorOfBox fc b = success)) = 0 →
      targetFor (scanBoxes success fc bs boxes) =
        (scanBoxes success fc bs boxes).boxes.BoxNumber1) ∧
    ((boxes.countP fun b => decide (colorOfBox fc b = success)) = 1 →
      targetFor (scanBoxes success fc bs boxes) =
        (scanBoxes success fc bs boxes).boxes.BoxNumber2) ∧
    ((boxes.countP fun b => decide (colorOfBox fc b = success)) = 2 →
      targetFor (scanBoxes success fc bs boxes) =
        (scanBoxes success fc bs boxes).boxes.BoxNumber3) ∧
    (∀ r, targetFor (scanBoxes success fc bs boxes) = some r →
      handle_boxes success region fc bs boxes =
        ((scanBoxes success fc bs boxes).boxes,
          some (click_box region r), true)) ∧
    (targetFor (scanBoxes success fc bs boxes) = none →
      handle_boxes success region fc bs boxes =
        ((scanBoxes success fc bs boxes).boxes, none, false)) := by
  have hclick : (scanBoxes success fc bs boxes).clickable = true := by
    rw [scanBoxes_clickable]
    rw [List.any_eq_true]
    obtain ⟨b, hb, hne⟩ := hlive
    exact ⟨b, hb, by simpa using hne⟩
  have hcnt := scanBoxes_success_count success fc bs boxes
  refine ⟨?_, ?_, ?_, ?_, ?_⟩
  · intro h0
    unfold targetFor
    rw [if_pos (by omega)]
  · intro h1
    unfold targetFor
    rw [if_neg (by omega), if_pos (by omega)]
  · intro h2
    unfold targetFor
    rw [if_neg (by omega), if_neg (by omega), if_pos (by omega)]
  · intro r hr
    simp only [handle_boxes]
    rw [if_neg (by simp [hclick]), hr]
  · intro hr
    simp only [handle_boxes]
    rw [if_neg (by simp [hclick]), hr]

/-- Witness for C6 at a concrete input: one success-coloured and one
live candidate, slot 2 cached; the tracker clicks slot 2's center
translated by the region corner. -/
theorem c6_success_count_slot_mapping_witness :
    targetFor (scanBoxes (0, 0, 0)
        (fun x _ _ _ => if x = 0 then (0, 0, 0) else (5, 5, 5))
        ⟨none, some ⟨(3, 4), (7, 7, 7), (0, 0, 1, 1)⟩, none⟩
        [⟨0, 0, 10, 10⟩, ⟨50, 0, 10, 10⟩]) =
      (scanBoxes (0, 0, 0)
        (fun x _ _ _ => if x = 0 then (0, 0, 0) else (5, 5, 5))
        ⟨none, some ⟨(3, 4), (7, 7, 7), (0, 0, 1, 1)⟩, none⟩
        [⟨0, 0, 10, 10⟩, ⟨50, 0, 10, 10⟩]).boxes.BoxNumber2 ∧
    handle_boxes (0, 0, 0) ⟨10, 20, 100, 100⟩
        (fun x _ _ _ => if x = 0 then (0, 0, 0) else (5, 5, 5))
        ⟨none, some ⟨(3, 4), (7, 7, 7), (0, 0, 1, 1)⟩, none⟩
        [⟨0, 0, 10, 10⟩, ⟨50, 0, 10, 10⟩] =
      ((scanBoxes (0, 0, 0)
        (fun x _ _ _ => if x = 0 then (0, 0, 0) else (5, 5, 5))
        ⟨none, some ⟨(3, 4), (7, 7, 7), (0, 0, 1, 1)⟩, none⟩
        [⟨0, 0, 10, 10⟩, ⟨50, 0, 10, 10⟩]).boxes,
       some (click_box ⟨10, 20, 100, 100⟩ ⟨(3, 4), (7, 7, 7), (0, 0, 1, 1)⟩),
       true) :=
  ⟨(c6_success_count_slot_mapping (0, 0, 0) ⟨10, 20, 100, 100⟩
      (fun x _ _ _ => if x = 0 then (0, 0, 0) else (5, 5, 5))
      ⟨none, some ⟨(3, 4), (7, 7, 7), (0, 0, 1, 1)⟩, none⟩
      [⟨0, 0, 10, 10⟩, ⟨50, 0, 10, 10⟩]
      ⟨⟨50, 0, 10, 10⟩, by decide, by decide⟩).2.1 (by decide),
   (c6_success_count_slot_mapping (0, 0, 0) ⟨10, 20, 100, 100⟩
      (fun x _ _ _ => if x = 0 then (0, 0, 0) else (5, 5, 5))
      ⟨none, some ⟨(3, 4), (7, 7, 7), (0, 0, 1, 1)⟩, none⟩
      [⟨0, 0, 10, 10⟩, ⟨50, 0, 10, 10⟩]
      ⟨⟨50, 0, 10, 10⟩, by decide, by decide⟩).2.2.2.1
      ⟨(3, 4), (7, 7, 7), (0, 0, 1, 1)⟩ (by decide)⟩

/-- C8 (counterexample): for three candidates with dominant colours
[C, D, C] where C is the success colour, the code counts both
C-coloured candidates, giving success_count = 2 (not 1), and the click
goes to slot 3's cached record (not slot 2's). -/
theorem c8_counterexample :
    (scanBoxes (10, 20, 30)
        (fun x _ _ _ => if x = 100 then (40, 50, 60) else (10, 20, 30))
        ⟨none, some ⟨(5, 5), (9, 9, 9), (0, 0, 10, 10)⟩,
          some ⟨(7, 8), (1, 2, 3), (0, 0, 10, 10)⟩⟩
        [⟨0, 0, 10, 10⟩, ⟨100, 0, 10, 10⟩, ⟨200, 0, 10, 10⟩]).success_count = 2 ∧
    (scanBoxes (10, 20, 30)
        (fun x _ _ _ => if x = 100 then (40, 50, 60) else (10, 20, 30))
        ⟨none, some ⟨(5, 5), (9, 9, 9), (0, 0, 10, 10)⟩,
          some ⟨(7, 8), (1, 2, 3), (0, 0, 10, 10)⟩⟩
        [⟨0, 0, 10, 10⟩, ⟨100, 0, 10, 10⟩, ⟨200, 0, 10, 10⟩]).success_count ≠ 1 ∧
    handle_boxes (10, 20, 30) ⟨1000, 2000, 500, 300⟩
        (fun x _ _ _ => if x = 100 then (40, 50, 60) else (10, 20, 30))
        ⟨none, some ⟨(5, 5), (9, 9, 9), (0, 0, 10, 10)⟩,
          some ⟨(7, 8), (1, 2, 3), (0, 0, 10, 10)⟩⟩
        [⟨0, 0, 10, 10⟩, ⟨100, 0, 10, 10⟩, ⟨200, 0, 10, 10⟩] =
      (⟨none, some ⟨(5, 5), (9, 9, 9), (0, 0, 10, 10)⟩,
          some ⟨(7, 8), (1, 2, 3), (0, 0, 10, 10)⟩⟩,
       some (1007, 2008), true) := by decide

/-- C8 (amended): for three candidates with dominant colours [C, D, C]
where C is the success colour and D is not, the tracker computes
success_count = 2 (each exact success-colour match counts) and the
remaining live record maps to slot 3 as the click target. -/
theorem c8_two_successes_slot3 (success : Color) (fc : Int → Int → Int → Int → Color)
    (bs : Boxes) (b1 b2 b3 : DetBox)
    (h1 : colorOfBox fc b1 = success) (h2 : colorOfBox fc b2 ≠ success)
    (h3 : colorOfBox fc b3 = success) :
    (scanBoxes success fc bs [b1, b2, b3]).success_count = 2 ∧
    targetFor (scanBoxes success fc bs [b1, b2, b3]) =
      (scanBoxes success fc bs [b1, b2, b3]).boxes.BoxNumber3 := by
  have hcnt : (scanBoxes success fc bs [b1, b2, b3]).success_count = 2 := by
    rw [scanBoxes_success_count]
    simp [List.countP_cons, h1, h2, h3]
  refine ⟨hcnt, ?_⟩
  unfold targetFor
  rw [if_neg (by omega), if_neg (by omega), if_pos (by omega)]

/-- Witness for C8 (amended) at a concrete input. -/
theorem c8_two_successes_slot3_witness :
    (scanBoxes (1, 1, 1) (fun x _ _ _ => if x = 9 then (2, 2, 2) else (1, 1, 1))
        ⟨none, none, some ⟨(6, 6), (3, 3, 3), (0, 0, 2, 2)⟩⟩
        [⟨0, 0, 4, 4⟩, ⟨9, 0, 4, 4⟩, ⟨20, 0, 4, 4⟩]).success_count = 2 ∧
    targetFor (scanBoxes (1, 1, 1)
        (fun x _ _ _ => if x = 9 then (2, 2, 2) else (1, 1, 1))
        ⟨none, none, some ⟨(6, 6), (3, 3, 3), (0, 0, 2, 2)⟩⟩
        [⟨0, 0, 4, 4⟩, ⟨9, 0, 4, 4⟩, ⟨20, 0, 4, 4⟩]) =
      (scanBoxes (1, 1, 1)
        (fun x _ _ _ => if x = 9 then (2, 2, 2) else (1, 1, 1))
        ⟨none, none, some ⟨(6, 6), (3, 3, 3), (0, 0, 2, 2)⟩⟩
        [⟨0, 0, 4, 4⟩, ⟨9, 0, 4, 4⟩, ⟨20, 0, 4, 4⟩]).boxes.BoxNumber3 :=
  c8_two_successes_slot3 (1, 1, 1)
    (fun x _ _ _ => if x = 9 then (2, 2, 2) else (1, 1, 1))
    ⟨none, none, some ⟨(6, 6), (3, 3, 3), (0, 0, 2, 2)⟩⟩
    ⟨0, 0, 4, 4⟩ ⟨9, 0, 4, 4⟩ ⟨20, 0, 4, 4⟩ (by decide) (by decide) (by decide)

/-- C10: when three or more candidates are success-coloured, the
success-count → slot mapping is partial and selects no target: the cycle
issues no click and reports no action, regardless of live candidates or
cached records. -/
theorem c10_no_action_beyond_two (success : Color) (region : Region)
    (fc : Int → Int → Int → Int → Color) (bs : Boxes) (boxes : List DetBox)
    (h3 : 3 ≤ boxes.countP fun b => decide (colorOfBox fc b = success)) :
    handle_boxes success region fc bs boxes =
      ((scanBoxes success fc bs boxes).boxes, none, false) := by
  have hcnt := scanBoxes_success_count success fc bs boxes
  have htgt : targetFor (scanBoxes success fc bs boxes) = none := by
    unfold targetFor
    rw [if_neg (by omega), if_neg (by omega), if_neg (by omega)]
  simp only [handle_boxes]
  by_cases hcl : (scanBoxes success fc bs boxes).clickable = false
  · rw [if_pos hcl]
  · rw [if_neg hcl, htgt]

/-- Witness for C10: three success-coloured candidates plus one live
candidate and fully cached slots still produce no click. -/
theorem c10_no_action_beyond_two_witness :
    3 ≤ ([⟨0, 0, 4, 4⟩, ⟨1, 0, 4, 4⟩, ⟨2, 0, 4, 4⟩, ⟨9, 0, 4, 4⟩] :
        List DetBox).countP
      (fun b => decide (colorOfBox
        (fun x _ _ _ => if x = 9 then (2, 2, 2) else (1, 1, 1)) b = (1, 1, 1))) ∧
    handle_boxes (1, 1, 1) ⟨10, 20, 100, 100⟩
        (fun x _ _ _ => if x = 9 then (2, 2, 2) else (1, 1, 1))
        ⟨some ⟨(1, 1), (4, 4, 4), (0, 0, 1, 1)⟩,
          some ⟨(2, 2), (5, 5, 5), (0, 0, 1, 1)⟩,
          some ⟨(3, 3), (6, 6, 6), (0, 0, 1, 1)⟩⟩
        [⟨0, 0, 4, 4⟩, ⟨1, 0, 4, 4⟩, ⟨2, 0, 4, 4⟩, ⟨9, 0, 4, 4⟩] =
      ((scanBoxes (1, 1, 1)
        (fun x _ _ _ => if x = 9 then (2, 2, 2) else (1, 1, 1))
        ⟨some ⟨(1, 1), (4, 4, 4), (0, 0, 1, 1)⟩,
          some ⟨(2, 2), (5, 5, 5), (0, 0, 1, 1)⟩,
          some ⟨(3, 3), (6, 6, 6), (0, 0, 1, 1)⟩⟩
        [⟨0, 0, 4, 4⟩, ⟨1, 0, 4, 4⟩, ⟨2, 0, 4, 4⟩, ⟨9, 0, 4, 4⟩]).boxes,
       none, false) :=
  ⟨by decide,
   c10_no_action_beyond_two (1, 1, 1) ⟨10, 20, 100, 100⟩
     (fun x _ _ _ => if x = 9 then (2, 2, 2) else (1, 1, 1))
     ⟨some ⟨(1, 1), (4, 4, 4), (0, 0, 1, 1)⟩,
       some ⟨(2, 2), (5, 5, 5), (0, 0, 1, 1)⟩,
       some ⟨(3, 3), (6, 6, 6), (0, 0, 1, 1)⟩⟩
     [⟨0, 0, 4, 4⟩, ⟨1, 0, 4, 4⟩, ⟨2, 0, 4, 4⟩, ⟨9, 0, 4, 4⟩] (by decide)⟩

/-! ## Lemmas about the fail-safe timer -/

lemma fireTimes_cons (delay last t : ℚ) (ts : List ℚ) :
    fireTimes delay last (t :: ts) =
      if delay < t - last then t :: fireTimes delay t ts
      else fireTimes delay last ts := by
  simp only [fireTimes, failSafeStep]
  by_cases h : delay < t - last
  · simp [h]
  · simp [h]

lemma fireTimes_all_gt (delay : ℚ) (hd : 0 ≤ delay) (ts : List ℚ) :
    ∀ (last : ℚ), ∀ x ∈ fireTimes delay last ts, delay < x - last := by
  induction ts with
  | nil =>
      intro last x hx
      simp [fireTimes] at hx
  | cons t ts ih =>
      intro last x hx
      rw [fireTimes_cons] at hx
      by_cases h : delay < t - last
      · rw [if_pos h] at hx
        rcases List.mem_cons.mp hx with rfl | hx
        · exact h
        · have hx1 := ih t x hx
          linarith
      · rw [if_neg h] at hx
        exact ih last x hx

lemma fireTimes_pairwise (delay : ℚ) (hd : 0 ≤ delay) (ts : List ℚ) :
    ∀ last, List.Pairwise (fun a b => delay < b - a) (fireTimes delay last ts) := by
  induction ts with
  | nil =>
      intro last
      simp [fireTimes]
  | cons t ts ih =>
      intro last
      rw [fireTimes_cons]
      by_cases h : delay < t - last
      · rw [if_pos h]
        exact List.Pairwise.cons (fun x hx => fireTimes_all_gt delay hd ts t x hx)
          (ih t)
      · rw [if_neg h]
        exact ih last

/-! ## Claim C7 -/

/-- C7: the fail-safe fires exactly when the current time exceeds the
last-reset timestamp by more than the configured delay, firing resets
the timestamp to the current time (otherwise it is kept), and along any
sequence of cycle times in which the timestamp changes only through the
fail-safe, any two firing times are separated by more than the delay
(and every firing is more than the delay after the initial timestamp). -/
theorem c7_fail_safe_rate_limit (delay : ℚ) (hd : 0 ≤ delay) :
    (∀ last now : ℚ,
      ((failSafeStep delay last now).1 = true ↔ delay < now - last) ∧
      (delay < now - last → (failSafeStep delay last now).2 = now) ∧
      (¬ delay < now - last → (failSafeStep delay last now).2 = last)) ∧
    (∀ (last : ℚ) (ts : List ℚ),
      List.Pairwise (fun a b => delay < b - a) (fireTimes delay last ts) ∧
      ∀ x ∈ fireTimes delay last ts, delay < x - last) := by
  constructor
  · intro last now
    refine ⟨?_, ?_, ?_⟩
    · unfold failSafeStep
      by_cases h : delay < now - last
      · simp [h]
      · simp [h]
    · intro h
      unfold failSafeStep
      rw [if_pos h]
    · intro h
      unfold failSafeStep
      rw [if_neg h]
  · intro last ts
    exact ⟨fireTimes_pairwise delay hd ts last,
      fireTimes_all_gt delay hd ts last⟩

unseal Rat.mul Rat.inv Rat.sub Rat.add in
/-- Witness for C7 at delay 1, initial timestamp 0, cycle times
[2, 3, 4]: the fail-safe fires at 2 and 4 (not at 3). -/
theorem c7_fail_safe_rate_limit_witness :
    (0 : ℚ) ≤ 1 ∧
    fireTimes 1 0 [2, 3, 4] = [2, 4] ∧
    List.Pairwise (fun a b => (1 : ℚ) < b - a) (fireTimes 1 0 [2, 3, 4]) ∧
    ((failSafeStep 1 0 2).1 = true ↔ (1 : ℚ) < 2 - 0) :=
  ⟨by decide, by decide,
   ((c7_fail_safe_rate_limit 1 (by decide)).2 0 [2, 3, 4]).1,
   ((c7_fail_safe_rate_limit 1 (by decide)).1 0 2).1⟩

end FivemAutoFish

/-! ## Claim C9 -/

/-- C9 (counterexample): the claim "cropping validates that the crop
stays within the source frame's bounds, and an out-of-bounds crop is
surfaced as a failure" is false: for a 100×100 frame and a region whose
requested height 200 exceeds the frame, `capture_screen` proceeds with a
silently truncated 100×50 image instead of failing. -/
theorem c9_counterexample :
    capture_screen (some (100, 100)) ⟨0, 0, 50, 200⟩ = some (100, 50) ∧
    (100, 50) ≠ ((⟨0, 0, 50, 200⟩ : Region).height.toNat,
      (⟨0, 0, 50, 200⟩ : Region).width.toNat) := by decide

/-- C9 (amended): cropping performs no bounds validation: numpy slice
clamping silently truncates any out-of-bounds crop, and only an
unavailable frame (`None`) is surfaced as the failure that makes the
caller skip the cycle; a crop whose region lies within the frame returns
exactly the region's dimensions. -/
theorem c9_crop_clamps_silently (z : Region) :
    capture_screen none z = none ∧
    (∀ d : Nat × Nat, capture_screen (some d) z = some (cropDims d z)) ∧
    (∀ h w : Nat, 0 ≤ z.top → 0 ≤ z.left → 0 ≤ z.height → 0 ≤ z.width →
      z.bottom.toNat ≤ h → z.right.toNat ≤ w →
      capture_screen (some (h, w)) z =
        some (z.height.toNat, z.width.toNat)) := by
  refine ⟨rfl, fun d => rfl, ?_⟩
  intro h w ht hl hh hw hb hr
  unfold capture_screen cropDims sliceLen
  rw [Region.bottom] at hb
  rw [Region.right] at hr
  simp only [Option.some.injEq, Prod.mk.injEq]
  constructor
  · rw [Region.bottom]
    omega
  · rw [Region.right]
    omega

/-- Witness for C9 (amended) at a concrete region and frame. -/
theorem c9_crop_clamps_silently_witness :
    capture_screen none ⟨2, 3, 4, 5⟩ = none ∧
    capture_screen (some (20, 30)) ⟨2, 3, 4, 5⟩ =
      some ((⟨2, 3, 4, 5⟩ : Region).height.toNat,
        (⟨2, 3, 4, 5⟩ : Region).width.toNat) :=
  ⟨(c9_crop_clamps_silently ⟨2, 3, 4, 5⟩).1,
   (c9_crop_clamps_silently ⟨2, 3, 4, 5⟩).2.2 20 30 (by decide) (by decide)
     (by decide) (by decide) (by decide) (by decide)⟩

end FishAuto
